import Mathlib

/-!
Verification of the access-token gate and contributor scoring/routing logic
of the nautical-compass backend (`src/main.py`), as a shallow embedding.

Modelling conventions:
* timestamps are natural numbers (seconds); `datetime.utcnow() + timedelta(hours=h)`
  becomes `now + h * 3600`, and ISO-string comparison of timestamps becomes `Nat` order;
* the SHA-256 digest is an abstract function parameter `hash : String → String`
  (no property of the digest is needed by these theorems);
* the randomly generated token secret is an explicit input of `issue_magic_link`;
* SQLite tables are lists of row structures kept in insertion order, with
  `AUTOINCREMENT` ids handed out from a `nextId` counter;
* Python `str.strip()`, `str.lower()`, `len` and `needle in hay` are modelled
  directly on the string's character list (`pyStrip`, `pyLower`, `pyLen`,
  `strContainsSub`), keeping every definition kernel-evaluable.
-/

/-- A row of the `magic_links` table. -/
structure MagicLinkRow where
  id : Nat
  email : String
  token_hash : String
  expires_at : Nat
  created_at : Nat
deriving Repr, DecidableEq

/-- The `magic_links` table: rows in insertion order plus the AUTOINCREMENT counter. -/
structure MagicStore where
  rows : List MagicLinkRow
  nextId : Nat
deriving Repr, DecidableEq

/-- Store well-formedness: every already-present id is below the AUTOINCREMENT counter
(guaranteed by SQLite's id assignment). -/
def MagicStore.WF (st : MagicStore) : Prop :=
  ∀ r ∈ st.rows, r.id < st.nextId

instance (st : MagicStore) : Decidable st.WF := by
  unfold MagicStore.WF; infer_instance

/-- `issue_magic_link` (src/main.py:336-349): hash the fresh token, store
`(email, token_hash, now + hours·3600, now)` as a new row, return the raw token. -/
def issue_magic_link (hash : String → String) (st : MagicStore)
    (email : String) (token : String) (now : Nat) (hours : Nat) : MagicStore × String :=
  let token_hash := hash token
  let expires := now + hours * 3600
  ({ rows := st.rows ++ [⟨st.nextId, email, token_hash, expires, now⟩]
     nextId := st.nextId + 1 }, token)

/-- `SELECT email, expires_at FROM magic_links WHERE token_hash = ? ORDER BY id DESC LIMIT 1`:
the matching row of maximal id, if any. -/
def selectLatest : List MagicLinkRow → String → Option MagicLinkRow
  | [], _ => none
  | r :: rs, h =>
    match selectLatest rs h with
    | none => if r.token_hash = h then some r else none
    | some x =>
      if r.token_hash = h then
        if x.id < r.id then some r else some x
      else some x

/-- `validate_magic_link` (src/main.py:352-370): recompute the digest, fetch the most
recent matching row, fail on no row or when `now` is strictly past `expires_at`,
otherwise return the bound email. -/
def validate_magic_link (hash : String → String) (st : MagicStore)
    (token : String) (now : Nat) : Option String :=
  let token_hash := hash token
  match selectLatest st.rows token_hash with
  | none => none
  | some row => if now > row.expires_at then none else some row.email

/-- A row of the `subscribers` table (`email` carries a UNIQUE constraint). -/
structure SubscriberRow where
  id : Nat
  email : String
  stripe_customer_id : String
  stripe_subscription_id : String
  status : String
  created_at : Nat
  updated_at : Nat
deriving Repr, DecidableEq

/-- The `subscribers` table: rows in insertion order plus the AUTOINCREMENT counter. -/
structure SubStore where
  rows : List SubscriberRow
  nextId : Nat
deriving Repr, DecidableEq

/-- `is_active_subscriber` (src/main.py:373-379):
`SELECT status FROM subscribers WHERE email = ? LIMIT 1`, then
`bool(row) and row["status"] == "active"`. -/
def is_active_subscriber (subs : List SubscriberRow) (email : String) : Bool :=
  match subs.find? (fun r => r.email == email) with
  | none => false
  | some r => r.status == "active"

/-- The `ON CONFLICT(email) DO UPDATE SET` clause of `upsert_subscriber_active`
(src/main.py:388-392), applied to a row exactly when its email conflicts. -/
def subUpd (email customer_id subscription_id : String) (now : Nat)
    (r : SubscriberRow) : SubscriberRow :=
  if r.email == email then
    { r with stripe_customer_id := customer_id
             stripe_subscription_id := subscription_id
             status := "active"
             updated_at := now }
  else r

/-- `upsert_subscriber_active` (src/main.py:382-395): insert an `'active'` row for the
email, or — on conflict with the UNIQUE email — overwrite the external refs, force
`status='active'` and refresh `updated_at` (`created_at` and `id` are untouched). -/
def upsert_subscriber_active (st : SubStore) (email customer_id subscription_id : String)
    (now : Nat) : SubStore :=
  if st.rows.any (fun r => r.email == email) then
    { st with rows := st.rows.map (subUpd email customer_id subscription_id now) }
  else
    { rows := st.rows ++
        [⟨st.nextId, email, customer_id, subscription_id, "active", now, now⟩]
      nextId := st.nextId + 1 }

/-- The `HTMLResponse(body, status_code)` values returned by the gate. -/
structure HTMLResponse where
  body : String
  status_code : Nat
deriving Repr, DecidableEq

/-- `require_subscriber_token` (src/main.py:398-409): `if not token` (absent or empty)
→ 401 "Missing token."; `if not email` after `validate_magic_link` (no result, or a row
bound to the Python-falsy email "") → 401 "Invalid or expired link."; inactive
subscription → 403 "Subscription not active."; otherwise the email, no error. -/
def require_subscriber_token (hash : String → String) (mst : MagicStore)
    (subs : List SubscriberRow) (token : Option String) (now : Nat) :
    Option String × Option HTMLResponse :=
  match token with
  | none => (none, some ⟨"Missing token.", 401⟩)
  | some t =>
    if t = "" then (none, some ⟨"Missing token.", 401⟩)
    else
      match validate_magic_link hash mst t now with
      | none => (none, some ⟨"Invalid or expired link.", 401⟩)
      | some email =>
        if email = "" then (none, some ⟨"Invalid or expired link.", 401⟩)
        else if is_active_subscriber subs email then (some email, none)
        else (none, some ⟨"Subscription not active.", 403⟩)

/-- Python `str.strip()`: drop whitespace from both ends, on the character list. -/
def pyStrip (s : String) : String :=
  ⟨((s.data.dropWhile Char.isWhitespace).reverse.dropWhile Char.isWhitespace).reverse⟩

/-- Python `str.lower()`: lower-case every character. -/
def pyLower (s : String) : String :=
  ⟨s.data.map Char.toLower⟩

/-- Python `len` on a string. -/
def pyLen (s : String) : Nat :=
  s.data.length

/-- Char-list test used to build the substring test. -/
def listIsPref : List Char → List Char → Bool
  | [], _ => true
  | _ :: _, [] => false
  | n :: ns, c :: cs => n == c && listIsPref ns cs

/-- Substring test on character lists: the needle occurs at some position of the hay. -/
def listContainsSub : List Char → List Char → Bool
  | [], needle => listIsPref needle []
  | c :: cs, needle => listIsPref needle (c :: cs) || listContainsSub cs needle

/-- Python's `needle in hay` on strings. -/
def strContainsSub (hay needle : String) : Bool :=
  listContainsSub hay.data needle.data

/-- `track_weights.get(track, 10)` (src/main.py:447-457): base weight per lower-cased
track label, default 10 on anything unrecognized. -/
def track_weights (track : String) : Nat :=
  if track = "ecosystem_staff" then 18
  else if track = "sales_growth" then 18
  else if track = "builder_operator" then 16
  else if track = "partner_vendor" then 14
  else if track = "hardware_supply" then 16
  else if track = "capital_sponsor" then 14
  else if track = "advisor_specialist" then 10
  else if track = "not_sure" then 8
  else 10

/-- Compensation-plan keyword bonus (src/main.py:459-467): first matching keyword wins. -/
def compPlanBonus (comp : String) : Nat :=
  if strContainsSub comp "residual" then 10
  else if strContainsSub comp "commission" then 10
  else if strContainsSub comp "hourly" then 6
  else if strContainsSub comp "equity" || strContainsSub comp "revshare" then 8
  else 0

/-- `if assets and len(assets.strip()) > 10: score += 10` (src/main.py:469-470). -/
def assetsBonus (assets : String) : Nat :=
  if assets ≠ "" ∧ pyLen (pyStrip assets) > 10 then 10 else 0

/-- `if website and len(website.strip()) > 6: score += 6` (src/main.py:471-472). -/
def websiteBonus (website : String) : Nat :=
  if website ≠ "" ∧ pyLen (pyStrip website) > 6 then 6 else 0

/-- `if company and len(company.strip()) > 2: score += 4` (src/main.py:473-474). -/
def companyBonus (company : String) : Nat :=
  if company ≠ "" ∧ pyLen (pyStrip company) > 2 then 4 else 0

/-- `filled = sum(1 for x in fit_fields if x and str(x).strip())` (src/main.py:476). -/
def fitFilledCount (fit_fields : List String) : Nat :=
  fit_fields.countP (fun x => !(x == "") && !(pyStrip x == ""))

/-- Authority-tier bonus on `fit_authority.lower().strip()` (src/main.py:479-485). -/
def authorityBonus (auth : String) : Nat :=
  if auth = "owner_exec" then 10
  else if auth = "manager_influence" then 6
  else if auth = "partial" then 3
  else 0

/-- `_score_contributor_track` (src/main.py:443-487): the running `score += …` total,
written as the sum of its independent contributions. -/
def _score_contributor_track (contribution_track comp_plan assets website company : String)
    (fit_fields : List String) (fit_authority : String) : Nat :=
  track_weights (pyLower (pyStrip contribution_track))
    + compPlanBonus (pyLower (pyStrip comp_plan))
    + assetsBonus assets
    + websiteBonus website
    + companyBonus company
    + min 16 (fitFilledCount fit_fields * 2)
    + authorityBonus (pyStrip (pyLower fit_authority))

/-- `_assign_rail` (src/main.py:490-515): priority cascade over score bands; within a
band, rules fire in declared order and the first match wins. -/
def _assign_rail (contribution_track position_interest fit_lane : String)
    (score : Nat) : String :=
  let track := pyLower (pyStrip contribution_track)
  let pos := pyLower (pyStrip position_interest)
  let lane := pyLower (pyStrip fit_lane)
  if score ≥ 70 then
    if track = "sales_growth" ∨ lane = "sales" ∨ strContainsSub pos "sales" = true ∨
        strContainsSub pos "closer" = true then "sales_priority"
    else if track = "ecosystem_staff" ∨ strContainsSub pos "intake" = true ∨
        strContainsSub pos "ops" = true ∨ strContainsSub pos "client" = true then
      "staff_priority"
    else if track = "hardware_supply" ∨ lane = "hardware" then "hardware_supply"
    else if track = "capital_sponsor" ∨ lane = "finance" then "capital"
    else "priority"
  else if score ≥ 45 then
    if track = "sales_growth" then "sales_pool"
    else if track = "ecosystem_staff" then "staff_pool"
    else if track = "partner_vendor" ∨ track = "hardware_supply" then "bd_followup"
    else "review"
  else "triage"

/-- The fields of a `POST /contributor` submission (src/main.py:929-953). -/
structure ContributorForm where
  name : String
  email : String
  phone : String
  company : String
  website : String
  primary_role : String
  contribution_track : String
  position_interest : String
  comp_plan : String
  director_owner : String
  assets : String
  regions : String
  capacity : String
  alignment : String
  message : String
  fit_access : String
  fit_build_goal : String
  fit_opportunity : String
  fit_authority : String
  fit_lane : String
  fit_no_conditions : String
  fit_visibility : String
  fit_why_you : String
deriving Repr, DecidableEq

/-- The `fit_fields` list built by `submit_contributor` (src/main.py:956). -/
def contributor_fit_fields (f : ContributorForm) : List String :=
  [f.fit_access, f.fit_build_goal, f.fit_opportunity, f.fit_authority,
   f.fit_lane, f.fit_no_conditions, f.fit_visibility, f.fit_why_you]

/-- The score computed by `submit_contributor` (src/main.py:957). -/
def contributor_score (f : ContributorForm) : Nat :=
  _score_contributor_track f.contribution_track f.comp_plan f.assets f.website f.company
    (contributor_fit_fields f) f.fit_authority

/-- The rail computed by `submit_contributor` (src/main.py:958). -/
def contributor_rail (f : ContributorForm) : String :=
  _assign_rail f.contribution_track f.position_interest f.fit_lane (contributor_score f)

/-- The spec's worked scoring example: `ecosystem_staff` track, residual comp plan,
substantial assets/website/company text, all 8 fit fields answered, owner authority. -/
def workedExampleForm : ContributorForm :=
  { name := "Jane Doe", email := "jane@example.com", phone := "", company := "Acme",
    website := "https://example.com", primary_role := "ops",
    contribution_track := "ecosystem_staff", position_interest := "",
    comp_plan := "residual monthly", director_owner := "Duece",
    assets := "10 warehouses with forklifts", regions := "", capacity := "",
    alignment := "", message := "",
    fit_access := "yes", fit_build_goal := "yes", fit_opportunity := "yes",
    fit_authority := "owner_exec", fit_lane := "ops", fit_no_conditions := "yes",
    fit_visibility := "yes", fit_why_you := "yes" }

/-- Concrete digest function used by the gate witnesses. -/
def gateHash : String → String := fun s => s ++ "#"

/-- Concrete magic-link store used by the gate witnesses: a live token for each of
two emails, plus one bound to the empty (Python-falsy) email. -/
def gateMst : MagicStore :=
  { rows := [⟨0, "a@b", "tok#", 100, 0⟩, ⟨1, "c@d", "tok2#", 100, 0⟩,
             ⟨2, "", "tok3#", 100, 0⟩]
    nextId := 3 }

/-- Concrete subscribers table used by the gate witnesses: only `a@b` is active. -/
def gateSubs : List SubscriberRow :=
  [⟨0, "a@b", "", "", "active", 0, 0⟩]

/-- A selected row is a matching member of the table. -/
theorem selectLatest_mem {rows : List MagicLinkRow} {h : String} {x : MagicLinkRow}
    (hx : selectLatest rows h = some x) : x ∈ rows ∧ x.token_hash = h := by
  induction rows with
  | nil => simp [selectLatest] at hx
  | cons r rs ih =>
    simp only [selectLatest] at hx
    cases hrec : selectLatest rs h with
    | none =>
      rw [hrec] at hx
      by_cases hm : r.token_hash = h
      · simp [hm] at hx; subst hx; exact ⟨List.mem_cons_self r rs, hm⟩
      · simp [hm] at hx
    | some y =>
      rw [hrec] at hx
      by_cases hm : r.token_hash = h
      · simp only [hm, if_pos] at hx
        by_cases hid : y.id < r.id
        · simp [hid] at hx; subst hx; exact ⟨List.mem_cons_self r rs, hm⟩
        · simp [hid] at hx; subst hx
          obtain ⟨hy1, hy2⟩ := ih hrec
          exact ⟨List.mem_cons_of_mem r hy1, hy2⟩
      · simp [hm] at hx; subst hx
        obtain ⟨hy1, hy2⟩ := ih hrec
        exact ⟨List.mem_cons_of_mem r hy1, hy2⟩

/-- Appending a matching row whose id strictly dominates all existing ids makes it
the selected row. -/
theorem selectLatest_append_max {rows : List MagicLinkRow} {h : String}
    {r : MagicLinkRow} (hmatch : r.token_hash = h)
    (hmax : ∀ y ∈ rows, y.id < r.id) :
    selectLatest (rows ++ [r]) h = some r := by
  induction rows with
  | nil => simp [selectLatest, hmatch]
  | cons y ys ih =>
    have hys : ∀ z ∈ ys, z.id < r.id := fun z hz => hmax z (List.mem_cons_of_mem y hz)
    have hy : y.id < r.id := hmax y (List.mem_cons_self y ys)
    have hnot : ¬ r.id < y.id := Nat.lt_asymm hy
    rw [List.cons_append]
    simp only [selectLatest]
    rw [ih hys]
    by_cases hm : y.token_hash = h
    · simp [hm, hnot]
    · simp [hm]

/-- Core round-trip fact: validating the token just issued, at any time not past the
stored expiry, yields the bound email.  Shared by the round-trip and boundary claims. -/
theorem validate_issue_of_le (hash : String → String) (st : MagicStore) (hwf : st.WF)
    (email token : String) (now hours now2 : Nat)
    (hle : now2 ≤ now + hours * 3600) :
    validate_magic_link hash (issue_magic_link hash st email token now hours).1 token now2
      = some email := by
  have hsel :
      selectLatest (st.rows ++ [⟨st.nextId, email, hash token, now + hours * 3600, now⟩])
        (hash token) = some ⟨st.nextId, email, hash token, now + hours * 3600, now⟩ :=
    selectLatest_append_max rfl (fun y hy => hwf y hy)
  simp only [validate_magic_link, issue_magic_link, hsel]
  simp [Nat.not_lt.mpr hle]

/-- C1: Round-trip of the token gate: a token issued via `issue_magic_link` and validated
while the current time is still at or before the stored expiry (`now + hours·3600`)
yields exactly the email it was issued for. -/
theorem magic_link_roundtrip (hash : String → String) (st : MagicStore) (hwf : st.WF)
    (email token : String) (now hours now2 : Nat)
    (hle : now2 ≤ now + hours * 3600) :
    validate_magic_link hash (issue_magic_link hash st email token now hours).1 token now2
      = some email :=
  validate_issue_of_le hash st hwf email token now hours now2 hle

/-- Witness for C1 at a concrete store, token and time. -/
theorem magic_link_roundtrip_witness :
    MagicStore.WF ⟨[], 0⟩ ∧ (5 : Nat) ≤ 5 + 24 * 3600 ∧
    validate_magic_link (fun s => s ++ "#") (issue_magic_link (fun s => s ++ "#") ⟨[], 0⟩
      "user@example.com" "tok123" 5 24).1 "tok123" 5 = some "user@example.com" :=
  ⟨by decide, by decide,
    magic_link_roundtrip (fun s => s ++ "#") ⟨[], 0⟩ (by decide)
      "user@example.com" "tok123" 5 24 5 (by decide)⟩

/-- C2: if every stored row carrying the supplied token's digest has its expiry strictly
before the current time, `validate_magic_link` returns `none` — also when the digest is
simply absent from the store. -/
theorem validate_expired (hash : String → String) (st : MagicStore) (token : String)
    (now : Nat)
    (hexp : ∀ r ∈ st.rows, r.token_hash = hash token → r.expires_at < now) :
    validate_magic_link hash st token now = none := by
  simp only [validate_magic_link]
  cases hsel : selectLatest st.rows (hash token) with
  | none => rfl
  | some x =>
    obtain ⟨hmem, hhash⟩ := selectLatest_mem hsel
    simp [hexp x hmem hhash]

/-- Witness for C2: a store holding an expired row for the digest of the supplied token. -/
theorem validate_expired_witness :
    (∀ r ∈ ({ rows := [⟨0, "user@example.com", "tok123#", 100, 0⟩], nextId := 1 }
        : MagicStore).rows,
      r.token_hash = (fun s => s ++ "#") "tok123" → r.expires_at < 101) ∧
    validate_magic_link (fun s => s ++ "#")
      { rows := [⟨0, "user@example.com", "tok123#", 100, 0⟩], nextId := 1 }
      "tok123" 101 = none :=
  ⟨by decide,
    validate_expired (fun s => s ++ "#")
      { rows := [⟨0, "user@example.com", "tok123#", 100, 0⟩], nextId := 1 }
      "tok123" 101 (by decide)⟩

/-- C10: boundary behaviour at expiry: validated at exactly the stored `expires_at`
instant, a freshly issued token is still accepted, because the comparison
`now > expires_at` is strict. -/
theorem validate_at_exact_expiry (hash : String → String) (st : MagicStore) (hwf : st.WF)
    (email token : String) (now hours : Nat) :
    validate_magic_link hash (issue_magic_link hash st email token now hours).1 token
      (now + hours * 3600) = some email :=
  validate_issue_of_le hash st hwf email token now hours (now + hours * 3600) Nat.le.refl

/-- Witness for C10 at a concrete store: validation exactly at the expiry instant. -/
theorem validate_at_exact_expiry_witness :
    MagicStore.WF ⟨[], 7⟩ ∧
    validate_magic_link (fun s => s ++ "#") (issue_magic_link (fun s => s ++ "#") ⟨[], 7⟩
      "user@example.com" "tok123" 5 24).1 "tok123" (5 + 24 * 3600)
      = some "user@example.com" :=
  ⟨by decide,
    validate_at_exact_expiry (fun s => s ++ "#") ⟨[], 7⟩ (by decide)
      "user@example.com" "tok123" 5 24⟩

/-- C8: `is_active_subscriber` is false for an email with no subscriber row and for an
email whose row is "canceled"; it is true only when a row for that email has status
exactly "active". -/
theorem is_active_subscriber_spec (subs : List SubscriberRow) (email : String) :
    ((∀ r ∈ subs, r.email ≠ email) → is_active_subscriber subs email = false) ∧
    ((∀ r ∈ subs, r.email = email → r.status = "canceled") →
      is_active_subscriber subs email = false) ∧
    (is_active_subscriber subs email = true →
      ∃ r ∈ subs, r.email = email ∧ r.status = "active") := by
  refine ⟨?_, ?_, ?_⟩
  · intro hnone
    have hf : subs.find? (fun r => r.email == email) = none :=
      List.find?_eq_none.mpr (fun x hx => by simpa using hnone x hx)
    simp [is_active_subscriber, hf]
  · intro hcanc
    cases hf : subs.find? (fun r => r.email == email) with
    | none => simp [is_active_subscriber, hf]
    | some r =>
      have hpe : r.email = email := by simpa using List.find?_some hf
      have hst : r.status = "canceled" :=
        hcanc r (List.mem_of_find?_eq_some hf) hpe
      simp [is_active_subscriber, hf, hst]
  · intro hact
    unfold is_active_subscriber at hact
    cases hf : subs.find? (fun r => r.email == email) with
    | none => rw [hf] at hact; simp at hact
    | some r =>
      rw [hf] at hact
      have hpe : r.email = email := by simpa using List.find?_some hf
      exact ⟨r, List.mem_of_find?_eq_some hf, hpe, by simpa using hact⟩

/-- Witness for C8: absent email, canceled email, and the active-row existence. -/
theorem is_active_subscriber_spec_witness :
    is_active_subscriber [⟨0, "a@b", "", "", "canceled", 0, 0⟩] "x@y" = false ∧
    is_active_subscriber [⟨0, "a@b", "", "", "canceled", 0, 0⟩] "a@b" = false ∧
    (∃ r ∈ ([⟨1, "ok@b", "", "", "active", 0, 0⟩] : List SubscriberRow),
      r.email = "ok@b" ∧ r.status = "active") :=
  ⟨(is_active_subscriber_spec [⟨0, "a@b", "", "", "canceled", 0, 0⟩] "x@y").1 (by decide),
   (is_active_subscriber_spec [⟨0, "a@b", "", "", "canceled", 0, 0⟩] "a@b").2.1 (by decide),
   (is_active_subscriber_spec [⟨1, "ok@b", "", "", "active", 0, 0⟩] "ok@b").2.2 (by decide)⟩

/-- C3: the combined gate maps its failure states to distinguishable results: missing or
empty token → 401 "Missing token."; failed validation — no matching digest, expired, or
a row bound to the Python-falsy email "", indistinguishably merged — → 401 "Invalid or
expired link."; valid token but inactive subscription → 403 "Subscription not active.";
valid token with active subscription → the email with no error — and the three error
responses are pairwise distinct. -/
theorem require_subscriber_token_cases (hash : String → String) (mst : MagicStore)
    (subs : List SubscriberRow) (now : Nat) :
    (require_subscriber_token hash mst subs none now
        = (none, some ⟨"Missing token.", 401⟩)) ∧
    (require_subscriber_token hash mst subs (some "") now
        = (none, some ⟨"Missing token.", 401⟩)) ∧
    (∀ t, t ≠ "" → validate_magic_link hash mst t now = none →
      require_subscriber_token hash mst subs (some t) now
        = (none, some ⟨"Invalid or expired link.", 401⟩)) ∧
    (∀ t, t ≠ "" → validate_magic_link hash mst t now = some "" →
      require_subscriber_token hash mst subs (some t) now
        = (none, some ⟨"Invalid or expired link.", 401⟩)) ∧
    (∀ t email, t ≠ "" → validate_magic_link hash mst t now = some email →
      email ≠ "" → is_active_subscriber subs email = false →
      require_subscriber_token hash mst subs (some t) now
        = (none, some ⟨"Subscription not active.", 403⟩)) ∧
    (∀ t email, t ≠ "" → validate_magic_link hash mst t now = some email →
      email ≠ "" → is_active_subscriber subs email = true →
      require_subscriber_token hash mst subs (some t) now = (some email, none)) ∧
    ((⟨"Missing token.", 401⟩ : HTMLResponse) ≠ ⟨"Invalid or expired link.", 401⟩) ∧
    ((⟨"Missing token.", 401⟩ : HTMLResponse) ≠ ⟨"Subscription not active.", 403⟩) ∧
    ((⟨"Invalid or expired link.", 401⟩ : HTMLResponse)
        ≠ ⟨"Subscription not active.", 403⟩) := by
  refine ⟨rfl, rfl, ?_, ?_, ?_, ?_, by decide, by decide, by decide⟩
  · intro t ht hv
    simp [require_subscriber_token, ht, hv]
  · intro t ht hv
    simp [require_subscriber_token, ht, hv]
  · intro t email ht hv hemail hin
    simp [require_subscriber_token, ht, hv, hemail, hin]
  · intro t email ht hv hemail hact
    simp [require_subscriber_token, ht, hv, hemail, hact]

/-- Witness for C3: all five gate outcomes on a concrete store, including a token whose
row binds the empty email. -/
theorem require_subscriber_token_cases_witness :
    require_subscriber_token gateHash gateMst gateSubs none 50
      = (none, some ⟨"Missing token.", 401⟩) ∧
    require_subscriber_token gateHash gateMst gateSubs (some "bad") 50
      = (none, some ⟨"Invalid or expired link.", 401⟩) ∧
    require_subscriber_token gateHash gateMst gateSubs (some "tok3") 50
      = (none, some ⟨"Invalid or expired link.", 401⟩) ∧
    require_subscriber_token gateHash gateMst gateSubs (some "tok2") 50
      = (none, some ⟨"Subscription not active.", 403⟩) ∧
    require_subscriber_token gateHash gateMst gateSubs (some "tok") 50
      = (some "a@b", none) :=
  ⟨(require_subscriber_token_cases gateHash gateMst gateSubs 50).1,
   (require_subscriber_token_cases gateHash gateMst gateSubs 50).2.2.1 "bad"
      (by decide) (by decide),
   (require_subscriber_token_cases gateHash gateMst gateSubs 50).2.2.2.1 "tok3"
      (by decide) (by decide),
   (require_subscriber_token_cases gateHash gateMst gateSubs 50).2.2.2.2.1 "tok2" "c@d"
      (by decide) (by decide) (by decide) (by decide),
   (require_subscriber_token_cases gateHash gateMst gateSubs 50).2.2.2.2.2.1 "tok" "a@b"
      (by decide) (by decide) (by decide) (by decide)⟩

/-- C5: scoring is deterministic, and on the spec's worked example
(`ecosystem_staff` track, "residual monthly" comp plan, substantial assets, website and
company, all 8 fit fields answered, `owner_exec` authority) the score is
18 + 10 + 10 + 6 + 4 + 16 + 10 = 74. -/
theorem contributor_score_worked_example :
    (∀ f g : ContributorForm, f = g → contributor_score f = contributor_score g) ∧
    contributor_score workedExampleForm = 74 :=
  ⟨fun _ _ h => by rw [h], by decide⟩

/-- Witness for C5: the determinism conjunct applied at the worked example itself. -/
theorem contributor_score_worked_example_witness :
    contributor_score workedExampleForm = contributor_score workedExampleForm ∧
    contributor_score workedExampleForm = 74 :=
  ⟨contributor_score_worked_example.1 workedExampleForm workedExampleForm rfl,
   contributor_score_worked_example.2⟩

/-- C6: every submission whose (normalized) track is "sales_growth" and whose score is
at least 70 is routed to "sales_priority": the sales rule is the first rule of the
≥ 70 band, so it fires before every other rule of that band and before the generic
"priority" fallback. -/
theorem assign_rail_sales_priority (track pos lane : String) (score : Nat)
    (htrack : pyLower (pyStrip track) = "sales_growth") (hscore : 70 ≤ score) :
    _assign_rail track pos lane score = "sales_priority" := by
  simp [_assign_rail, htrack, hscore]

/-- Witness for C6: score 74 with track "sales_growth". -/
theorem assign_rail_sales_priority_witness :
    pyLower (pyStrip "sales_growth") = "sales_growth" ∧ (70 : Nat) ≤ 74 ∧
    _assign_rail "sales_growth" "ops person" "hardware" 74 = "sales_priority" :=
  ⟨by decide, by decide,
   assign_rail_sales_priority "sales_growth" "ops person" "hardware" 74
     (by decide) (by decide)⟩

/-- C7: scoring and routing are total on unknown categorical input: an unrecognized
track label gets the fixed default base weight 10 (no branch is missing), and any
submission whose total score is below 45 is railed to "triage". -/
theorem unknown_track_total_default (track : String)
    (hunk : pyLower (pyStrip track) ∉ (["ecosystem_staff", "sales_growth",
      "builder_operator", "partner_vendor", "hardware_supply", "capital_sponsor",
      "advisor_specialist", "not_sure"] : List String)) :
    track_weights (pyLower (pyStrip track)) = 10 ∧
    (∀ pos lane : String, ∀ score : Nat, score < 45 →
      _assign_rail track pos lane score = "triage") := by
  constructor
  · simp only [List.mem_cons, List.not_mem_nil, or_false, not_or] at hunk
    obtain ⟨h1, h2, h3, h4, h5, h6, h7, h8⟩ := hunk
    simp [track_weights, h1, h2, h3, h4, h5, h6, h7, h8]
  · intro pos lane score hs
    have h70 : ¬ 70 ≤ score := by omega
    have h45 : ¬ 45 ≤ score := by omega
    simp [_assign_rail, h70, h45]

/-- Witness for C7: the unrecognized track "wizardry" with a low score. -/
theorem unknown_track_total_default_witness :
    track_weights (pyLower (pyStrip "wizardry")) = 10 ∧
    _assign_rail "wizardry" "" "" 20 = "triage" :=
  ⟨(unknown_track_total_default "wizardry" (by decide)).1,
   (unknown_track_total_default "wizardry" (by decide)).2 "" "" 20 (by decide)⟩

/-- The track base weight is between 8 and 18. -/
theorem track_weights_bounds (t : String) :
    8 ≤ track_weights t ∧ track_weights t ≤ 18 := by
  unfold track_weights; split_ifs <;> omega

/-- The comp-plan keyword bonus is at most 10. -/
theorem compPlanBonus_le (c : String) : compPlanBonus c ≤ 10 := by
  unfold compPlanBonus; split_ifs <;> omega

/-- The assets bonus is at most 10. -/
theorem assetsBonus_le (a : String) : assetsBonus a ≤ 10 := by
  unfold assetsBonus; split_ifs <;> omega

/-- The website bonus is at most 6. -/
theorem websiteBonus_le (w : String) : websiteBonus w ≤ 6 := by
  unfold websiteBonus; split_ifs <;> omega

/-- The company bonus is at most 4. -/
theorem companyBonus_le (c : String) : companyBonus c ≤ 4 := by
  unfold companyBonus; split_ifs <;> omega

/-- The authority bonus is at most 10. -/
theorem authorityBonus_le (a : String) : authorityBonus a ≤ 10 := by
  unfold authorityBonus; split_ifs <;> omega

/-- C9: for every possible input, the contributor score lies between 8 and 74: the
minimum is the "not_sure" base weight with no other contribution, the maximum is
18 + 10 + 10 + 6 + 4 + 16 + 10, so no cap at 100 could ever take effect. -/
theorem score_bounds (ct cp a w co : String) (ff : List String) (fa : String) :
    8 ≤ _score_contributor_track ct cp a w co ff fa ∧
    _score_contributor_track ct cp a w co ff fa ≤ 74 := by
  unfold _score_contributor_track
  have h1 := track_weights_bounds (pyLower (pyStrip ct))
  have h2 := compPlanBonus_le (pyLower (pyStrip cp))
  have h3 := assetsBonus_le a
  have h4 := websiteBonus_le w
  have h5 := companyBonus_le co
  have h6 : min 16 (fitFilledCount ff * 2) ≤ 16 := Nat.min_le_left _ _
  have h7 := authorityBonus_le (pyStrip (pyLower fa))
  omega

/-- Witness for C9 on a concrete submission. -/
theorem score_bounds_witness :
    8 ≤ _score_contributor_track "zzz" "" "" "" "" [] "" ∧
    _score_contributor_track "zzz" "" "" "" "" [] "" ≤ 74 :=
  score_bounds "zzz" "" "" "" "" [] ""

/-- The conflict update never changes a row's email. -/
theorem subUpd_email (email c s : String) (t : Nat) (r : SubscriberRow) :
    (subUpd email c s t r).email = r.email := by
  unfold subUpd; split_ifs <;> rfl

/-- The email predicate is invariant under the conflict update. -/
theorem pe_comp_subUpd (email c s : String) (t : Nat) :
    ((fun r : SubscriberRow => r.email == email) ∘ subUpd email c s t)
      = (fun r : SubscriberRow => r.email == email) := by
  funext r
  simp [Function.comp, subUpd_email]

/-- Re-applying the conflict update with the same refs only refreshes `updated_at`. -/
theorem subUpd_subUpd (email c s : String) (t1 t2 : Nat) (r : SubscriberRow) :
    subUpd email c s t2 (subUpd email c s t1 r)
      = (fun x : SubscriberRow =>
          if x.email == email then { x with updated_at := t2 } else x)
          (subUpd email c s t1 r) := by
  by_cases h : (r.email == email) = true
  · simp [subUpd, h]
  · simp only [Bool.not_eq_true] at h
    simp [subUpd, h]

/-- A row not matching the email is untouched by the conflict update. -/
theorem subUpd_of_ne (email c s : String) (t : Nat) (r : SubscriberRow)
    (h : (r.email == email) = false) : subUpd email c s t r = r := by
  simp [subUpd, h]

/-- A row updated by the conflict update for its own email has status "active". -/
theorem subUpd_status (email c s : String) (t : Nat) (r : SubscriberRow)
    (h : (r.email == email) = true) : (subUpd email c s t r).status = "active" := by
  simp [subUpd, h]

/-- C4: activation is idempotent: starting from a table with at most one row for the
email (the UNIQUE constraint), applying `upsert_subscriber_active` twice with the same
payload leaves exactly one row for that email; the second application adds no row,
allocates no id, only refreshes `updated_at` (the refs being rewritten to the values
they already hold), and every row for the email ends with status "active". -/
theorem upsert_subscriber_active_idempotent (st : SubStore) (email c s : String)
    (t1 t2 : Nat) (st1 st2 : SubStore)
    (huniq : st.rows.countP (fun r => r.email == email) ≤ 1)
    (h1 : st1 = upsert_subscriber_active st email c s t1)
    (h2 : st2 = upsert_subscriber_active st1 email c s t2) :
    st2.rows.countP (fun r => r.email == email) = 1 ∧
    st2.rows.length = st1.rows.length ∧
    st2.nextId = st1.nextId ∧
    st2.rows = st1.rows.map
      (fun x => if x.email == email then { x with updated_at := t2 } else x) ∧
    (∀ r ∈ st2.rows, r.email = email → r.status = "active") := by
  subst h1 h2
  by_cases hany : st.rows.any (fun r => r.email == email) = true
  · -- conflict path twice: both applications are row-wise updates
    have hany1 : ((st.rows.map (subUpd email c s t1)).any
        (fun r => r.email == email)) = true := by
      rw [List.any_map, pe_comp_subUpd]; exact hany
    have e1 : upsert_subscriber_active st email c s t1
        = { st with rows := st.rows.map (subUpd email c s t1) } := by
      unfold upsert_subscriber_active; rw [if_pos hany]
    have e2 : upsert_subscriber_active
          { st with rows := st.rows.map (subUpd email c s t1) } email c s t2
        = { st with rows :=
            (st.rows.map (subUpd email c s t1)).map (subUpd email c s t2) } := by
      unfold upsert_subscriber_active
      rw [if_pos hany1]
    rw [e1, e2]
    refine ⟨?_, by simp, rfl, ?_, ?_⟩
    · show ((st.rows.map (subUpd email c s t1)).map
        (subUpd email c s t2)).countP (fun r => r.email == email) = 1
      rw [List.countP_map, List.countP_map, pe_comp_subUpd, pe_comp_subUpd]
      have hpos : 0 < st.rows.countP (fun r => r.email == email) :=
        List.countP_pos_iff.mpr (List.any_eq_true.mp hany)
      omega
    · show (st.rows.map (subUpd email c s t1)).map (subUpd email c s t2)
        = (st.rows.map (subUpd email c s t1)).map
            (fun x => if x.email == email then { x with updated_at := t2 } else x)
      rw [List.map_map, List.map_map]
      exact List.map_congr_left (fun r _ => subUpd_subUpd email c s t1 t2 r)
    · intro r hr hre
      rw [List.map_map] at hr
      obtain ⟨x, _, hx⟩ := List.mem_map.mp hr
      have hx1 : (subUpd email c s t1 x).email = r.email := by
        rw [← hx]; simp [Function.comp, subUpd_email]
      have hbeq : ((subUpd email c s t1 x).email == email) = true := by
        rw [hx1, hre]; simp
      rw [← hx]
      exact subUpd_status email c s t2 (subUpd email c s t1 x) hbeq
  · -- no conflict: the first application appends the row, the second updates it
    have hall : ∀ r ∈ st.rows, ((r.email == email) = false) := by
      intro r hr
      by_contra hc
      simp only [Bool.not_eq_false] at hc
      exact hany (List.any_eq_true.mpr ⟨r, hr, hc⟩)
    have hnew : ((SubscriberRow.mk st.nextId email c s "active" t1 t1).email
        == email) = true := by simp
    have hany1 : ((st.rows ++ [(SubscriberRow.mk st.nextId email c s "active" t1 t1)]).any
        (fun r => r.email == email)) = true :=
      List.any_eq_true.mpr
        ⟨SubscriberRow.mk st.nextId email c s "active" t1 t1,
         List.mem_append_right _ (List.mem_singleton.mpr rfl), hnew⟩
    have e1 : upsert_subscriber_active st email c s t1
        = { rows := st.rows ++ [(SubscriberRow.mk st.nextId email c s "active" t1 t1)]
            nextId := st.nextId + 1 } := by
      unfold upsert_subscriber_active; rw [if_neg hany]
    have e2 : upsert_subscriber_active
          { rows := st.rows ++ [(SubscriberRow.mk st.nextId email c s "active" t1 t1)]
            nextId := st.nextId + 1 } email c s t2
        = { rows := (st.rows ++ [(SubscriberRow.mk st.nextId email c s "active" t1 t1)]).map
              (subUpd email c s t2)
            nextId := st.nextId + 1 } := by
      unfold upsert_subscriber_active
      rw [if_pos hany1]
    rw [e1, e2]
    have hmapid : st.rows.map (subUpd email c s t2) = st.rows :=
      (List.map_congr_left (fun r hr => subUpd_of_ne email c s t2 r (hall r hr))).trans
        (List.map_id st.rows)
    have h0 : st.rows.countP (fun r => r.email == email) = 0 :=
      List.countP_eq_zero.mpr (fun r hr => by simp [hall r hr])
    refine ⟨?_, by simp, rfl, ?_, ?_⟩
    · show ((st.rows ++ [(SubscriberRow.mk st.nextId email c s "active" t1 t1)]).map
        (subUpd email c s t2)).countP (fun r => r.email == email) = 1
      rw [List.map_append, hmapid, List.countP_append, h0]
      simp [subUpd]
    · show (st.rows ++ [(SubscriberRow.mk st.nextId email c s "active" t1 t1)]).map
          (subUpd email c s t2)
        = (st.rows ++ [(SubscriberRow.mk st.nextId email c s "active" t1 t1)]).map
            (fun x => if x.email == email then { x with updated_at := t2 } else x)
      have hmapid2 : st.rows.map
          (fun x : SubscriberRow =>
            if x.email == email then { x with updated_at := t2 } else x) = st.rows := by
        refine (List.map_congr_left ?_).trans (List.map_id st.rows)
        intro r hr
        simp [hall r hr]
      rw [List.map_append, List.map_append, hmapid, hmapid2]
      congr 1
    · intro r hr hre
      rw [List.map_append, hmapid] at hr
      rcases List.mem_append.mp hr with hrl | hrr
      · have := hall r hrl
        rw [hre] at this
        simp at this
      · have hreq : r = subUpd email c s t2 (SubscriberRow.mk st.nextId email c s "active" t1 t1) := by
          simpa using hrr
        rw [hreq]
        exact subUpd_status email c s t2 _ hnew

/-- Witness for C4: replaying activation on an initially empty table leaves exactly one
"a@b" row. -/
theorem upsert_subscriber_active_idempotent_witness :
    (upsert_subscriber_active (upsert_subscriber_active ⟨[], 0⟩ "a@b" "cus" "sub" 10)
        "a@b" "cus" "sub" 20).rows.countP (fun r => r.email == "a@b") = 1 :=
  (upsert_subscriber_active_idempotent ⟨[], 0⟩ "a@b" "cus" "sub" 10 20 _ _
    (by decide) rfl rfl).1
